import Mathlib

/-!
Verification of the BAPS-QB-SOLVER browser application.

The repository is a TypeScript/React application that uploads a PDF question
bank, calls a hosted generative-AI API with a two-tier fallback, renders the
result, and offers audio narration and video generation.  This file gives a
shallow embedding of the pure logic of the source files:

* `src/services/geminiService.ts`: prompt assembly, the two-tier generation
  orchestrator, and the video polling loop;
* `src/components/UploadArea.tsx`: file validation;
* `src/components/AudioPlayer.tsx`: PCM decoding and the play/stop/generate
  state machine;
* the application shell (`App.tsx`): the `ProcessState` status transitions.

External network calls are modelled by passing their outcomes as explicit
parameters; React `useState`/`useRef` cells become fields of explicit state
records.
-/

namespace BapsQB

/-! ## Data model (`types.ts`) -/

/-- `enum GeminiModel` from `types.ts`. -/
inductive GeminiModel where
  | FLASH
  | PRO
deriving DecidableEq, Repr

/-- The string value carried by each `GeminiModel` enum member. -/
def GeminiModel.id : GeminiModel → String
  | .FLASH => "gemini-2.5-flash"
  | .PRO => "gemini-3-pro-preview"

/-- `interface AnswerData` from `types.ts`. -/
structure AnswerData where
  text : String
  modelUsed : String
deriving DecidableEq, Repr

/-- The `depth` field of `AppSettings`. -/
inductive Depth where
  | concise
  | detailed
deriving DecidableEq, Repr

/-- The `language` field of `AppSettings`. -/
inductive Language where
  | english
  | hinglish
deriving DecidableEq, Repr

/-- The `focus` field of `AppSettings`. -/
inductive Focus where
  | exam
  | concept
deriving DecidableEq, Repr

/-- `interface AppSettings` from `types.ts`. -/
structure AppSettings where
  depth : Depth
  language : Language
  focus : Focus
deriving DecidableEq, Repr

/-! ## Prompt assembly (`geminiService.ts`, `generateAnswersFromPdf`)

The prompt is built by string concatenation from the base instruction, a
CONFIGURATION block driven by the settings, and an optional custom
instruction.  The strings below are copied verbatim from the source. -/

/-- The initial value of `promptText` in `generateAnswersFromPdf`. -/
def basePrompt : String :=
  "Generate a comprehensive study guide, solution key, and concept roadmap for the questions in this PDF. Use LaTeX for all math."

/-- The depth directive appended for each `settings.depth` value. -/
def depthDirective : Depth → String
  | .concise => "\n- DEPTH: Concise. Focus on key points and direct answers. Avoid fluff."
  | .detailed => "\n- DEPTH: Detailed. Provide in-depth explanations, background context, and step-by-step derivations."

/-- The language directive: appended only when `settings.language` is
`hinglish`; nothing is appended for `english`. -/
def languageDirective : Language → String
  | .english => ""
  | .hinglish => "\n- LANGUAGE: Use English for technical terms but explain concepts using simple analogies or occasional Hindi/Gujarati context where helpful for Indian students (Hinglish style)."

/-- The focus directive appended for each `settings.focus` value. -/
def focusDirective : Focus → String
  | .exam => "\n- FOCUS: Exam Preparation. Highlight potential exam questions, common pitfalls, and marking scheme tips."
  | .concept => "\n- FOCUS: Concept Mastery. Focus on deep understanding, real-world applications, and connecting dots between topics."

/-- JavaScript's `String.prototype.trim`: strip whitespace characters from
both ends of the string. -/
def jsTrim (s : String) : String :=
  ⟨(((s.data.dropWhile Char.isWhitespace).reverse.dropWhile
      Char.isWhitespace).reverse)⟩

/-- The custom-instruction suffix: in the source, `promptText +=` of the
template `USER SPECIFIC INSTRUCTIONS: ` with the raw custom string in double
quotes and a trailing period, guarded by
`customInstructions && customInstructions.trim().length > 0`
(JavaScript truthiness: the empty string is falsy). -/
def customSuffix (ci : Option String) : String :=
  match ci with
  | none => ""
  | some s =>
      if s ≠ "" ∧ (jsTrim s).length > 0 then
        "\n\nUSER SPECIFIC INSTRUCTIONS: \"" ++ s ++ "\"."
      else ""

/-- The prompt string assembled by `generateAnswersFromPdf` from the optional
settings and the optional custom instruction, mirroring the sequence of
`promptText +=` statements in the source. -/
def buildPrompt (settings : Option AppSettings) (ci : Option String) : String :=
  (match settings with
   | none => basePrompt
   | some s =>
       basePrompt ++ "\n\nCONFIGURATION:"
         ++ depthDirective s.depth
         ++ languageDirective s.language
         ++ focusDirective s.focus)
  ++ customSuffix ci

/-! ### Substring occurrence counting, used to state the directive claims -/

/-- Number of positions of `l` at which the pattern `pat` occurs
(as a contiguous sublist). -/
def listCountOccurs (pat : List Char) : List Char → Nat
  | [] => if pat = [] then 1 else 0
  | c :: rest =>
      (if pat.isPrefixOf (c :: rest) then 1 else 0) + listCountOccurs pat rest

/-- Number of occurrences of `pat` as a substring of `s`. -/
def countOccurs (pat s : String) : Nat :=
  listCountOccurs pat.data s.data

/-- Index of the first occurrence of the pattern in the character list,
if any. -/
def listFirstOccur (pat : List Char) : List Char → Option Nat
  | [] => if pat = [] then some 0 else none
  | c :: rest =>
      if pat.isPrefixOf (c :: rest) then some 0
      else (listFirstOccur pat rest).map (· + 1)

/-- Index of the first occurrence of `pat` as a substring of `s`, if any. -/
def firstOccurIdx (pat s : String) : Option Nat :=
  listFirstOccur pat.data s.data

/-! ## Two-tier generation orchestrator (`generateAnswersFromPdf`)

The two `ai.models.generateContent` calls are external; each is modelled by
a `CallOutcome` parameter: either the awaited promise rejects with an error
message, or it resolves to a response whose `text` field is the given string
(an absent text is modelled by `""`, which is exactly what the falsiness
test `if (response.text)` checks). -/

/-- Outcome of one outbound `generateContent` call. -/
inductive CallOutcome where
  | response (text : String)
  | raise (msg : String)
deriving DecidableEq, Repr

/-- The fixed user-facing failure message thrown when both tiers fail. -/
def failureMessage : String :=
  "Failed to generate answers. Please try again later or check if the PDF is valid."

/-- The inner `try`/`catch` of `generateAnswersFromPdf`: the fallback call to
the FLASH model, reached from the outer `catch`.  Returns the function's
result together with the list of models called so far (the PRO call always
precedes it). -/
def fallbackToFlash (secondary : CallOutcome) :
    Except String AnswerData × List GeminiModel :=
  match secondary with
  | .response t =>
      if t ≠ "" then (.ok ⟨t, GeminiModel.FLASH.id⟩, [.PRO, .FLASH])
      else (.error failureMessage, [.PRO, .FLASH])
  | .raise _ => (.error failureMessage, [.PRO, .FLASH])

/-- The orchestration of `generateAnswersFromPdf`: try the PRO model; on a
rejected promise or an empty `response.text` (the code throws
`"Empty response from Pro model"` into the same `catch`), fall back to the
FLASH model once.  The second component records, in order, the models for
which an outbound generation call was made. -/
def generateAnswersFromPdf (primary secondary : CallOutcome) :
    Except String AnswerData × List GeminiModel :=
  match primary with
  | .response t =>
      if t ≠ "" then (.ok ⟨t, GeminiModel.PRO.id⟩, [.PRO])
      else fallbackToFlash secondary
  | .raise _ => fallbackToFlash secondary

/-- A call outcome that triggers the fallback path: the promise rejected, or
the response text was empty. -/
def CallOutcome.failed : CallOutcome → Prop
  | .response t => t = ""
  | .raise _ => True

instance : DecidablePred CallOutcome.failed := fun o =>
  match o with
  | .response t => inferInstanceAs (Decidable (t = ""))
  | .raise _ => inferInstanceAs (Decidable True)

/-! ## Upload validation (`UploadArea.tsx`, `validateAndSetFile`) -/

/-- The fields of a browser `File` object read by `validateAndSetFile`:
its declared MIME type and its size in bytes. -/
structure JSFile where
  type : String
  size : Nat
deriving DecidableEq, Repr

/-- What `validateAndSetFile` does with the file: call `setError` with a
message and return, or call `onFileSelect(file)`. -/
inductive UploadAction where
  | rejected (errorMsg : String)
  | selected
deriving DecidableEq, Repr

/-- `validateAndSetFile` from `UploadArea.tsx`: reject a non-PDF MIME type,
then reject a size strictly above `20 * 1024 * 1024` bytes, otherwise pass
the file to `onFileSelect`. -/
def validateAndSetFile (file : JSFile) : UploadAction :=
  if file.type ≠ "application/pdf" then
    .rejected "Only PDF files are allowed."
  else if file.size > 20 * 1024 * 1024 then
    .rejected "File size exceeds the 20MB limit."
  else
    .selected

/-! ## PCM decoding (`AudioPlayer.tsx`, inside `handleGenerateAndPlay`)

The byte buffer returned by the synthesis endpoint is reinterpreted as
`Int16Array` (little-endian 16-bit two's-complement pairs) and each sample
is divided by `32768.0`.  Every quotient is `k / 2^15` with `|k| ≤ 2^15`,
exactly representable in the `Float32Array` channel data, so the samples are
modelled exactly as rationals.  Bytes are natural numbers; the source
produces them via `charCodeAt` of an `atob` string, so they lie in
`0 … 255`, and the embedding reduces them `% 256` as the typed array view
would. -/

/-- The signed 16-bit value formed from a little-endian byte pair, as in the
`Int16Array` view of the decoded buffer. -/
def toInt16 (lo hi : Nat) : Int :=
  let u := (hi % 256) * 256 + lo % 256
  if u < 32768 then (u : Int) else (u : Int) - 65536

/-- The sample list produced by the decoding loop
`channelData[i] = dataInt16[i] / 32768.0` from the raw byte list. -/
def decodePcmSamples : List Nat → List ℚ
  | lo :: hi :: rest => ((toInt16 lo hi : ℚ) / 32768) :: decodePcmSamples rest
  | _ => []

/-! ## AudioPlayer play/generate state machine (`handleGenerateAndPlay`) -/

/-- Outcome of one `generateAudioGuide` call (an external request): either a
decoded byte payload or a rejection message. -/
inductive SynthOutcome where
  | ok (bytes : List Nat)
  | fail (msg : String)
deriving DecidableEq, Repr

/-- The component state of `AudioPlayer` relevant to
`handleGenerateAndPlay`: the `isPlaying`/`isLoading`/`error`/`hasAudio`
state hooks, the `audioBufferRef` ref holding the decoded samples, and an
instrumentation counter of how many `generateAudioGuide` calls have been
issued. -/
structure AudioPlayerState where
  isPlaying : Bool
  isLoading : Bool
  error : Option String
  hasAudio : Bool
  audioBuffer : Option (List ℚ)
  synthCalls : Nat
deriving DecidableEq, Repr

/-- One invocation of `handleGenerateAndPlay`.  If playing, stop.  If audio
was already decoded (`hasAudio && audioBufferRef.current`), replay the
stored buffer without any outbound call.  Otherwise call
`generateAudioGuide` (outcome given by `env`), decode and play on success,
or record the error on failure; `setIsLoading(true)` is undone by the
`finally` block, so `isLoading` ends `false` either way. -/
def handleGenerateAndPlay (env : SynthOutcome) (s : AudioPlayerState) :
    AudioPlayerState :=
  if s.isPlaying then
    { s with isPlaying := false }
  else if s.hasAudio && s.audioBuffer.isSome then
    { s with isPlaying := true }
  else
    match env with
    | .ok bytes =>
        { s with
            isLoading := false
            error := none
            audioBuffer := some (decodePcmSamples bytes)
            hasAudio := true
            isPlaying := true
            synthCalls := s.synthCalls + 1 }
    | .fail m =>
        { s with
            isLoading := false
            error := some (if m ≠ "" then m else "Failed to generate audio.")
            synthCalls := s.synthCalls + 1 }

/-- A sequence of `handleGenerateAndPlay` invocations, folding the state. -/
def runAudioEvents (s : AudioPlayerState) (envs : List SynthOutcome) :
    AudioPlayerState :=
  envs.foldl (fun st e => handleGenerateAndPlay e st) s

/-! ## Video generation polling (`generateEducationalVideo`) -/

/-- The fields of the long-running operation handle read by the loop: its
`done` flag and the media URI
`operation.response?.generatedVideos?.[0]?.video?.uri` (none when any link
of that optional chain is absent). -/
structure VideoOperation where
  done : Bool
  uri : Option String
deriving DecidableEq, Repr

/-- The operation value seen after `k` re-queries: the initial
`generateVideos` handle at `0`, then the result of the `k`-th
`getVideosOperation` call (the environment `polls`). -/
def opAt (op0 : VideoOperation) (polls : Nat → VideoOperation) :
    Nat → VideoOperation
  | 0 => op0
  | k + 1 => polls k

/-- Fuel-indexed run of the `while (!operation.done)` loop.  `op` is the
current handle, `i` the number of re-queries made so far, `sleep` the total
milliseconds slept so far; each iteration sleeps `5000` ms then re-queries.
`none` means the loop is still running after `fuel` iterations — the source
loop has no bound of its own. -/
def pollLoop (polls : Nat → VideoOperation) :
    Nat → VideoOperation → Nat → Nat → Option (VideoOperation × Nat × Nat)
  | 0, op, i, sleep => if op.done then some (op, i, sleep) else none
  | fuel + 1, op, i, sleep =>
      if op.done then some (op, i, sleep)
      else pollLoop polls fuel (polls i) (i + 1) (sleep + 5000)

/-- The error message thrown when the completed operation has no URI. -/
def noUriMessage : String :=
  "Video generation completed but no URI returned."

/-- `generateEducationalVideo` observed up to `fuel` loop iterations:
`none` while still polling; once the loop exits, return the URI or throw
the fixed no-URI error. -/
def generateEducationalVideo (op0 : VideoOperation)
    (polls : Nat → VideoOperation) (fuel : Nat) :
    Option (Except String String) :=
  match pollLoop polls fuel op0 0 0 with
  | none => none
  | some (op, _, _) =>
      match op.uri with
      | some u => some (.ok u)
      | none => some (.error noUriMessage)

/-! ## Application `ProcessState` transitions (`App.tsx`)

Every `setProcessState` call site in `App.tsx`, with the guard under which
it can run:

* `handleGenerate` entry sets `processing`; the Generate button is disabled
  while `status === 'processing'` (and without a file), so it fires from
  any other status;
* the `await generateAnswersFromPdf` continuation sets `success` or `error`;
  it only runs as the continuation of `handleGenerate`, i.e. from
  `processing`;
* `loadFromHistory` sets `success` directly, with no status guard;
* `reset` sets `idle`, with no status guard;
* the error panel's Try Again button sets `idle`; the panel renders only
  when `status === 'error'`. -/

/-- The `status` field of `interface ProcessState` from `types.ts`. -/
inductive ProcessStatus where
  | idle
  | processing
  | success
  | error
deriving DecidableEq, Repr

/-- The UI operations of `App.tsx` that call `setProcessState`. -/
inductive AppEvent where
  | generateStart
  | generateSuccess
  | generateFailure
  | loadFromHistory
  | reset
  | tryAgain
deriving DecidableEq, Repr

/-- One status transition: `some s'` when the event can fire in status `s`
and sets the status to `s'`; `none` when the UI guard prevents it.  The
`generateSuccess`/`generateFailure` continuations are modelled as firing in
the `processing` status that `handleGenerate` set, i.e. runs of a single
generation attempt with no interleaved history/reset action during the
`await`. -/
def stepStatus : AppEvent → ProcessStatus → Option ProcessStatus
  | .generateStart, s => if s ≠ .processing then some .processing else none
  | .generateSuccess, s => if s = .processing then some .success else none
  | .generateFailure, s => if s = .processing then some .error else none
  | .loadFromHistory, _ => some .success
  | .reset, _ => some .idle
  | .tryAgain, s => if s = .error then some .idle else none

/-! ## Helper lemmas -/

/-- The empty string trims to itself. -/
theorem jsTrim_empty : jsTrim "" = "" := rfl

/-- A nonempty string has positive length. -/
theorem length_pos_of_ne_empty (s : String) (h : s ≠ "") : 0 < s.length := by
  obtain ⟨data⟩ := s
  cases data with
  | nil => exact absurd rfl h
  | cons a as => simp [String.length_mk]

/-- An omitted custom instruction contributes nothing to the prompt. -/
theorem customSuffix_none_eq : customSuffix none = "" := rfl

/-- A custom instruction that trims to the empty string contributes nothing
to the prompt. -/
theorem customSuffix_of_trim_empty (ci : String) (h : jsTrim ci = "") :
    customSuffix (some ci) = "" := by
  simp [customSuffix, h]

/-- A custom instruction with a non-whitespace character is appended
verbatim, quoted, after the fixed marker. -/
theorem customSuffix_of_trim_ne (ci : String) (h : jsTrim ci ≠ "") :
    customSuffix (some ci)
      = "\n\nUSER SPECIFIC INSTRUCTIONS: \"" ++ ci ++ "\"." := by
  have hne : ci ≠ "" := fun hc => h (by rw [hc]; rfl)
  have hlen : 0 < (jsTrim ci).length := length_pos_of_ne_empty _ h
  simp [customSuffix, hne, hlen]

/-- String append associates. -/
theorem string_append_assoc (a b c : String) : a ++ b ++ c = a ++ (b ++ c) := by
  apply String.ext
  simp [String.data_append, List.append_assoc]

/-- The empty string is a right identity for string append. -/
theorem string_append_empty (a : String) : a ++ "" = a := by
  apply String.ext
  simp [String.data_append]

/-- The little-endian byte pair decodes to a signed 16-bit value. -/
theorem toInt16_bounds (lo hi : Nat) :
    -32768 ≤ toInt16 lo hi ∧ toInt16 lo hi ≤ 32767 := by
  have h1 : lo % 256 < 256 := Nat.mod_lt _ (by norm_num)
  have h2 : hi % 256 < 256 := Nat.mod_lt _ (by norm_num)
  by_cases h : (hi % 256) * 256 + lo % 256 < 32768 <;>
    simp [toInt16, h] <;> constructor <;> omega

/-- Each normalized sample `int16 / 32768` lies in `[-1, 1]`. -/
theorem sample_bounds (lo hi : Nat) :
    -1 ≤ (toInt16 lo hi : ℚ) / 32768 ∧ (toInt16 lo hi : ℚ) / 32768 ≤ 1 := by
  obtain ⟨h1, h2⟩ := toInt16_bounds lo hi
  have hq1 : (-32768 : ℚ) ≤ ((toInt16 lo hi : Int) : ℚ) := by exact_mod_cast h1
  have hq2 : ((toInt16 lo hi : Int) : ℚ) ≤ 32767 := by exact_mod_cast h2
  constructor
  · rw [le_div_iff₀ (by norm_num : (0 : ℚ) < 32768)]
    linarith
  · rw [div_le_one (by norm_num : (0 : ℚ) < 32768)]
    linarith

/-- Decoding `N` bytes yields `N / 2` samples. -/
theorem decodePcmSamples_length :
    ∀ bytes : List Nat, (decodePcmSamples bytes).length = bytes.length / 2
  | [] => by simp [decodePcmSamples]
  | [_] => by simp [decodePcmSamples]
  | lo :: hi :: rest => by
      simp [decodePcmSamples, decodePcmSamples_length rest]
      omega

/-- Every decoded sample lies in `[-1, 1]`. -/
theorem decodePcmSamples_mem :
    ∀ (bytes : List Nat) (x : ℚ), x ∈ decodePcmSamples bytes → -1 ≤ x ∧ x ≤ 1
  | [], x => by simp [decodePcmSamples]
  | [_], x => by simp [decodePcmSamples]
  | lo :: hi :: rest, x => by
      intro hx
      simp only [decodePcmSamples, List.mem_cons] at hx
      rcases hx with h | h
      · subst h
        exact sample_bounds lo hi
      · exact decodePcmSamples_mem rest x h

/-- Once audio is decoded and stored, `handleGenerateAndPlay` preserves the
stored buffer, the `hasAudio` flag and the synthesis-call count. -/
theorem handleGenerateAndPlay_preserves (env : SynthOutcome)
    (s : AudioPlayerState) (h1 : s.hasAudio = true)
    (h2 : s.audioBuffer.isSome = true) :
    (handleGenerateAndPlay env s).hasAudio = true ∧
    (handleGenerateAndPlay env s).audioBuffer = s.audioBuffer ∧
    (handleGenerateAndPlay env s).synthCalls = s.synthCalls := by
  by_cases hp : s.isPlaying <;> simp [handleGenerateAndPlay, hp, h1, h2]

/-- If the first `done` status in the re-query sequence (relative to re-query
index `i`) comes after `n` further iterations and the fuel allows at least
`n` iterations, the loop runs exactly `n` more iterations, sleeping `5000`
milliseconds and re-querying once per iteration. -/
theorem pollLoop_reaches (op0 : VideoOperation)
    (polls : Nat → VideoOperation) :
    ∀ n : Nat, ∀ i fuel sleep : Nat, n ≤ fuel →
      (∀ k, k < n → (opAt op0 polls (i + k)).done = false) →
      (opAt op0 polls (i + n)).done = true →
      pollLoop polls fuel (opAt op0 polls i) i sleep
        = some (opAt op0 polls (i + n), i + n, sleep + 5000 * n) := by
  intro n
  induction n with
  | zero =>
      intro i fuel sleep _ _ hdone
      rw [Nat.add_zero] at hdone ⊢
      cases fuel with
      | zero => simp [pollLoop, hdone]
      | succ f => simp [pollLoop, hdone]
  | succ n ih =>
      intro i fuel sleep hn hk hdone
      cases fuel with
      | zero => omega
      | succ f =>
          have h0 : (opAt op0 polls i).done = false := by
            have := hk 0 (Nat.succ_pos n)
            rwa [Nat.add_zero] at this
          have hstep : pollLoop polls (f + 1) (opAt op0 polls i) i sleep
              = pollLoop polls f (polls i) (i + 1) (sleep + 5000) := by
            simp [pollLoop, h0]
          rw [hstep]
          have hpi : polls i = opAt op0 polls (i + 1) := rfl
          rw [hpi]
          have hrec := ih (i + 1) f (sleep + 5000) (by omega)
            (fun k hk' => by
              have := hk (k + 1) (by omega)
              rwa [show i + (k + 1) = i + 1 + k by omega] at this)
            (by rwa [show i + 1 + n = i + (n + 1) by omega])
          rw [hrec]
          have e1 : i + 1 + n = i + (n + 1) := by omega
          have e2 : sleep + 5000 + 5000 * n = sleep + 5000 * (n + 1) := by ring
          rw [e1, e2]

/-- If no polled status is ever `done`, no amount of fuel makes the loop
return: the source loop never gives up on its own. -/
theorem pollLoop_stuck (op0 : VideoOperation) (polls : Nat → VideoOperation)
    (hall : ∀ k, (opAt op0 polls k).done = false) :
    ∀ fuel i sleep : Nat,
      pollLoop polls fuel (opAt op0 polls i) i sleep = none := by
  intro fuel
  induction fuel with
  | zero => intro i sleep; simp [pollLoop, hall i]
  | succ f ih =>
      intro i sleep
      have hstep : pollLoop polls (f + 1) (opAt op0 polls i) i sleep
          = pollLoop polls f (polls i) (i + 1) (sleep + 5000) := by
        simp [pollLoop, hall i]
      rw [hstep, show polls i = opAt op0 polls (i + 1) from rfl]
      exact ih (i + 1) (sleep + 5000)

/-! ## Claim theorems -/

/-- C1: whenever the primary call of `generateAnswersFromPdf` raises or
returns empty text, the secondary call is made exactly once; and if the
secondary call also raises or returns empty text, the function throws the
fixed user-facing message and never the raw exception string of either
underlying failure. -/
theorem claim_C1 :
    ∀ (p s : CallOutcome), p.failed →
      ((generateAnswersFromPdf p s).2.count GeminiModel.FLASH = 1) ∧
      (s.failed →
        (generateAnswersFromPdf p s).1 = .error failureMessage ∧
        ∀ m, (p = .raise m ∨ s = .raise m) → m ≠ failureMessage →
          (generateAnswersFromPdf p s).1 ≠ .error m) := by
  intro p s hp
  cases p with
  | response t =>
      have ht : t = "" := hp
      subst ht
      cases s with
      | response u =>
          by_cases hu : u = ""
          · subst hu
            refine ⟨by simp [generateAnswersFromPdf, fallbackToFlash, List.count],
              fun _ => ⟨rfl, ?_⟩⟩
            rintro m (hm | hm) <;>
              simp_all [generateAnswersFromPdf, fallbackToFlash]
          · refine ⟨by simp [generateAnswersFromPdf, fallbackToFlash, hu,
              List.count], fun hs => ?_⟩
            exact absurd hs hu
      | raise mm =>
          refine ⟨by simp [generateAnswersFromPdf, fallbackToFlash, List.count],
            fun _ => ⟨rfl, ?_⟩⟩
          rintro m (hm | hm) hne
          · simp_all
          · simp_all [generateAnswersFromPdf, fallbackToFlash]
            exact fun h => hne h.symm
  | raise mp =>
      cases s with
      | response u =>
          by_cases hu : u = ""
          · subst hu
            refine ⟨by simp [generateAnswersFromPdf, fallbackToFlash, List.count],
              fun _ => ⟨rfl, ?_⟩⟩
            rintro m (hm | hm) hne
            · simp_all [generateAnswersFromPdf, fallbackToFlash]
              exact fun h => hne h.symm
            · simp_all
          · refine ⟨by simp [generateAnswersFromPdf, fallbackToFlash, hu,
              List.count], fun hs => ?_⟩
            exact absurd hs hu
      | raise mm =>
          refine ⟨by simp [generateAnswersFromPdf, fallbackToFlash, List.count],
            fun _ => ⟨rfl, ?_⟩⟩
          rintro m (hm | hm) hne <;>
            simp_all [generateAnswersFromPdf, fallbackToFlash] <;>
            exact fun h => hne h.symm

/-- Witness for C1 at a raising primary call and an empty secondary
response. -/
theorem claim_C1_witness :
    ((generateAnswersFromPdf (.raise "network error")
        (.response "")).2.count GeminiModel.FLASH = 1) ∧
    (generateAnswersFromPdf (.raise "network error") (.response "")).1
      = .error failureMessage ∧
    (generateAnswersFromPdf (.raise "network error") (.response "")).1
      ≠ .error "network error" := by
  have h := claim_C1 (.raise "network error") (.response "") trivial
  exact ⟨h.1, (h.2 rfl).1,
    (h.2 rfl).2 "network error" (Or.inl rfl) (by decide)⟩

/-- C2: a successful nonempty primary response is returned tagged with the
PRO identifier after exactly one outbound call; a raising primary call
followed by a successful nonempty secondary response is returned tagged with
the FLASH identifier after exactly two outbound calls. -/
theorem claim_C2 :
    (∀ (secondary : CallOutcome) (t : String), t ≠ "" →
      generateAnswersFromPdf (.response t) secondary
          = (.ok ⟨t, GeminiModel.PRO.id⟩, [.PRO]) ∧
      (generateAnswersFromPdf (.response t) secondary).2.length = 1) ∧
    (∀ (m u : String), u ≠ "" →
      generateAnswersFromPdf (.raise m) (.response u)
          = (.ok ⟨u, GeminiModel.FLASH.id⟩, [.PRO, .FLASH]) ∧
      (generateAnswersFromPdf (.raise m) (.response u)).2.length = 2) := by
  constructor
  · intro secondary t ht
    simp [generateAnswersFromPdf, ht]
  · intro m u hu
    simp [generateAnswersFromPdf, fallbackToFlash, hu]

/-- Witness for C2 at concrete nonempty response texts. -/
theorem claim_C2_witness :
    (generateAnswersFromPdf (.response "guide") (.raise "later")
        = (.ok ⟨"guide", GeminiModel.PRO.id⟩, [.PRO]) ∧
      (generateAnswersFromPdf (.response "guide") (.raise "later")).2.length
        = 1) ∧
    (generateAnswersFromPdf (.raise "boom") (.response "fallback guide")
        = (.ok ⟨"fallback guide", GeminiModel.FLASH.id⟩, [.PRO, .FLASH]) ∧
      (generateAnswersFromPdf (.raise "boom")
          (.response "fallback guide")).2.length = 2) :=
  ⟨claim_C2.1 (.raise "later") "guide" (by decide),
   claim_C2.2 "boom" "fallback guide" (by decide)⟩

set_option maxRecDepth 40000 in
/-- C3: for every settings combination, the prompt assembled by
`generateAnswersFromPdf` contains exactly one depth directive, at most one
language directive (present exactly for `hinglish`), and exactly one focus
directive, and the directives appear in the fixed relative order depth, then
language, then focus. -/
theorem claim_C3 :
    ∀ s : AppSettings,
      countOccurs "- DEPTH:" (buildPrompt (some s) none) = 1 ∧
      countOccurs "- FOCUS:" (buildPrompt (some s) none) = 1 ∧
      countOccurs "- LANGUAGE:" (buildPrompt (some s) none)
        = (if s.language = Language.hinglish then 1 else 0) ∧
      (firstOccurIdx "- DEPTH:" (buildPrompt (some s) none)).getD 0
        < (firstOccurIdx "- FOCUS:" (buildPrompt (some s) none)).getD 0 ∧
      (s.language = Language.hinglish →
        (firstOccurIdx "- DEPTH:" (buildPrompt (some s) none)).getD 0
          < (firstOccurIdx "- LANGUAGE:" (buildPrompt (some s) none)).getD 0 ∧
        (firstOccurIdx "- LANGUAGE:" (buildPrompt (some s) none)).getD 0
          < (firstOccurIdx "- FOCUS:" (buildPrompt (some s) none)).getD 0) := by
  rintro ⟨d, l, f⟩
  cases d <;> cases l <;> cases f <;>
    exact ⟨by decide, by decide, by decide, by decide, by decide⟩

/-- Witness for C3 at the concise/hinglish/exam settings combination. -/
theorem claim_C3_witness :
    countOccurs "- DEPTH:"
        (buildPrompt (some ⟨.concise, .hinglish, .exam⟩) none) = 1 ∧
    countOccurs "- FOCUS:"
        (buildPrompt (some ⟨.concise, .hinglish, .exam⟩) none) = 1 ∧
    countOccurs "- LANGUAGE:"
        (buildPrompt (some ⟨.concise, .hinglish, .exam⟩) none) = 1 ∧
    (firstOccurIdx "- DEPTH:"
        (buildPrompt (some ⟨.concise, .hinglish, .exam⟩) none)).getD 0
      < (firstOccurIdx "- LANGUAGE:"
          (buildPrompt (some ⟨.concise, .hinglish, .exam⟩) none)).getD 0 ∧
    (firstOccurIdx "- LANGUAGE:"
        (buildPrompt (some ⟨.concise, .hinglish, .exam⟩) none)).getD 0
      < (firstOccurIdx "- FOCUS:"
          (buildPrompt (some ⟨.concise, .hinglish, .exam⟩) none)).getD 0 := by
  have h := claim_C3 ⟨.concise, .hinglish, .exam⟩
  exact ⟨h.1, h.2.1, by simpa using h.2.2.1, (h.2.2.2.2 rfl).1,
    (h.2.2.2.2 rfl).2⟩

/-- C4: the upload validator rejects any non-PDF MIME type with the type
error regardless of size, accepts a PDF of exactly `20 * 1024 * 1024` bytes,
and rejects a PDF of `20 * 1024 * 1024 + 1` bytes with the size error
(without selecting the file). -/
theorem claim_C4 :
    ∀ file : JSFile,
      (file.type ≠ "application/pdf" →
        validateAndSetFile file = .rejected "Only PDF files are allowed.") ∧
      (file.type = "application/pdf" → file.size = 20 * 1024 * 1024 →
        validateAndSetFile file = .selected) ∧
      (file.type = "application/pdf" → file.size = 20 * 1024 * 1024 + 1 →
        validateAndSetFile file
          = .rejected "File size exceeds the 20MB limit.") := by
  intro file
  refine ⟨fun h => ?_, fun h hs => ?_, fun h hs => ?_⟩
  · simp [validateAndSetFile, h]
  · simp [validateAndSetFile, h, hs]
  · simp [validateAndSetFile, h, hs]

/-- Witness for C4 at a text file, a 20 MB PDF and a 20 MB + 1 byte PDF. -/
theorem claim_C4_witness :
    validateAndSetFile ⟨"text/plain", 0⟩
      = .rejected "Only PDF files are allowed." ∧
    validateAndSetFile ⟨"application/pdf", 20971520⟩ = .selected ∧
    validateAndSetFile ⟨"application/pdf", 20971521⟩
      = .rejected "File size exceeds the 20MB limit." :=
  ⟨(claim_C4 ⟨"text/plain", 0⟩).1 (by decide),
   (claim_C4 ⟨"application/pdf", 20971520⟩).2.1 rfl rfl,
   (claim_C4 ⟨"application/pdf", 20971521⟩).2.2 rfl rfl⟩

/-- C5: decoding a raw PCM byte buffer of `N` bytes produces exactly `N / 2`
floating-point samples, each lying in the interval `[-1, 1]`. -/
theorem claim_C5 :
    ∀ bytes : List Nat,
      (decodePcmSamples bytes).length = bytes.length / 2 ∧
      ∀ x ∈ decodePcmSamples bytes, -1 ≤ x ∧ x ≤ 1 :=
  fun bytes =>
    ⟨decodePcmSamples_length bytes,
     fun x hx => decodePcmSamples_mem bytes x hx⟩

/-- Witness for C5 at a concrete four-byte buffer (samples `-1` and the
largest positive sample). -/
theorem claim_C5_witness :
    (decodePcmSamples [0, 128, 255, 127]).length
      = ([0, 128, 255, 127] : List Nat).length / 2 ∧
    ∀ x ∈ decodePcmSamples [0, 128, 255, 127], -1 ≤ x ∧ x ≤ 1 :=
  claim_C5 [0, 128, 255, 127]

/-- C6: when audio has already been decoded and stored, a play request
replays the stored buffer without another synthesis call; and from any such
state, no sequence of further `handleGenerateAndPlay` invocations ever
issues another `generateAudioGuide` call. -/
theorem claim_C6 :
    (∀ (env : SynthOutcome) (s : AudioPlayerState) (b : List ℚ),
      s.isPlaying = false → s.hasAudio = true → s.audioBuffer = some b →
      handleGenerateAndPlay env s = { s with isPlaying := true }) ∧
    (∀ (envs : List SynthOutcome) (s : AudioPlayerState),
      s.hasAudio = true → s.audioBuffer.isSome = true →
      (runAudioEvents s envs).synthCalls = s.synthCalls) := by
  constructor
  · intro env s b hp ha hb
    simp [handleGenerateAndPlay, hp, ha, hb]
  · intro envs
    induction envs with
    | nil => intro s _ _; rfl
    | cons e es ih =>
        intro s h1 h2
        obtain ⟨p1, p2, p3⟩ := handleGenerateAndPlay_preserves e s h1 h2
        have hstep : runAudioEvents s (e :: es)
            = runAudioEvents (handleGenerateAndPlay e s) es := rfl
        rw [hstep, ih _ p1 (by rw [p2]; exact h2), p3]

/-- Witness for C6 at a state holding a decoded one-sample buffer. -/
theorem claim_C6_witness :
    (handleGenerateAndPlay (.ok [])
        ⟨false, false, none, true, some [(1 : ℚ)], 3⟩
      = { (⟨false, false, none, true, some [(1 : ℚ)], 3⟩ :
            AudioPlayerState) with isPlaying := true }) ∧
    (runAudioEvents ⟨false, false, none, true, some [(1 : ℚ)], 3⟩
        [.ok [], .fail "x", .ok [0, 1]]).synthCalls
      = (⟨false, false, none, true, some [(1 : ℚ)], 3⟩ :
          AudioPlayerState).synthCalls :=
  ⟨claim_C6.1 (.ok []) _ [(1 : ℚ)] rfl rfl rfl,
   claim_C6.2 [.ok [], .fail "x", .ok [0, 1]] _ rfl rfl⟩

/-- C7: the polling loop sleeps a fixed 5000 ms then re-queries once per
iteration and exits exactly when a polled operation reports done; with no
done status it never returns for any fuel (no attempt bound of its own); a
completed operation without a media URI makes the function throw the fixed
no-URI error. -/
theorem claim_C7 :
    (∀ (op0 : VideoOperation) (polls : Nat → VideoOperation) (n : Nat),
      (∀ k, k < n → (opAt op0 polls k).done = false) →
      (opAt op0 polls n).done = true →
      ∀ fuel, n ≤ fuel →
        pollLoop polls fuel op0 0 0 = some (opAt op0 polls n, n, 5000 * n)) ∧
    (∀ (op0 : VideoOperation) (polls : Nat → VideoOperation),
      (∀ k, (opAt op0 polls k).done = false) →
      ∀ fuel, pollLoop polls fuel op0 0 0 = none ∧
        generateEducationalVideo op0 polls fuel = none) ∧
    (∀ (op0 : VideoOperation) (polls : Nat → VideoOperation)
        (fuel : Nat) (op : VideoOperation) (i sleep : Nat),
      pollLoop polls fuel op0 0 0 = some (op, i, sleep) → op.uri = none →
      generateEducationalVideo op0 polls fuel
        = some (.error noUriMessage)) := by
  refine ⟨?_, ?_, ?_⟩
  · intro op0 polls n hk hdone fuel hfuel
    have h := pollLoop_reaches op0 polls n 0 fuel 0 hfuel
      (fun k hk' => by rw [Nat.zero_add]; exact hk k hk')
      (by rw [Nat.zero_add]; exact hdone)
    rw [show opAt op0 polls 0 = op0 from rfl] at h
    rw [h]
    simp
  · intro op0 polls hall fuel
    have hnone := pollLoop_stuck op0 polls hall fuel 0 0
    rw [show opAt op0 polls 0 = op0 from rfl] at hnone
    exact ⟨hnone, by simp [generateEducationalVideo, hnone]⟩
  · intro op0 polls fuel op i sleep hloop huri
    simp [generateEducationalVideo, hloop, huri]

/-- Witness for C7: a first poll that completes with a URI, an environment
that never completes, and a completed poll without a URI. -/
theorem claim_C7_witness :
    pollLoop (fun _ => ⟨true, some "u"⟩) 3 ⟨false, none⟩ 0 0
      = some (⟨true, some "u"⟩, 1, 5000) ∧
    (pollLoop (fun _ => ⟨false, none⟩) 4 ⟨false, none⟩ 0 0 = none ∧
      generateEducationalVideo ⟨false, none⟩ (fun _ => ⟨false, none⟩) 4
        = none) ∧
    generateEducationalVideo ⟨false, none⟩ (fun _ => ⟨true, none⟩) 3
      = some (.error noUriMessage) := by
  refine ⟨?_, ?_, ?_⟩
  · have h := claim_C7.1 ⟨false, none⟩ (fun _ => ⟨true, some "u"⟩) 1
      (fun k hk => by
        have hk0 : k = 0 := by omega
        subst hk0; rfl)
      rfl 3 (by omega)
    simpa using h
  · exact claim_C7.2.1 ⟨false, none⟩ (fun _ => ⟨false, none⟩)
      (fun k => by cases k <;> rfl) 4
  · exact claim_C7.2.2 ⟨false, none⟩ (fun _ => ⟨true, none⟩) 3
      ⟨true, none⟩ 1 5000 (by simp [pollLoop, opAt]) rfl

/-- C8 counterexample: `loadFromHistory` sets the status to `success`
directly from `idle` without passing through `processing`, and the Generate
button fires from `error`, setting `processing` from a non-`idle` status —
both contradicting the claimed strict cycle. -/
theorem claim_C8_cex :
    stepStatus .loadFromHistory .idle = some .success ∧
    ProcessStatus.idle ≠ ProcessStatus.processing ∧
    stepStatus .generateStart .error = some .processing ∧
    ProcessStatus.error ≠ ProcessStatus.idle := by
  decide

/-- C8 (amended): the generate flow sets `success`/`error` only from
`processing`, and `reset`/try-again return to `idle`; but `processing` is
entered from any non-`processing` status, and `loadFromHistory` sets
`success` directly from any status without passing through `processing`. -/
theorem claim_C8 :
    ∀ (e : AppEvent) (s s' : ProcessStatus), stepStatus e s = some s' →
      (s' = .processing → e = .generateStart ∧ s ≠ .processing) ∧
      (s' = .success →
        (e = .generateSuccess ∧ s = .processing) ∨ e = .loadFromHistory) ∧
      (s' = .error → e = .generateFailure ∧ s = .processing) ∧
      (s' = .idle → e = .reset ∨ (e = .tryAgain ∧ s = .error)) := by
  intro e s s'
  cases e <;> cases s <;> cases s' <;> simp [stepStatus]

/-- Witness for C8 at the `generateSuccess` transition from `processing`. -/
theorem claim_C8_witness :
    (ProcessStatus.success = .processing →
      AppEvent.generateSuccess = .generateStart ∧
        ProcessStatus.processing ≠ .processing) ∧
    (ProcessStatus.success = .success →
      (AppEvent.generateSuccess = .generateSuccess ∧
        ProcessStatus.processing = .processing) ∨
      AppEvent.generateSuccess = .loadFromHistory) ∧
    (ProcessStatus.success = .error →
      AppEvent.generateSuccess = .generateFailure ∧
        ProcessStatus.processing = .processing) ∧
    (ProcessStatus.success = .idle →
      AppEvent.generateSuccess = .reset ∨
        (AppEvent.generateSuccess = .tryAgain ∧
          ProcessStatus.processing = .error)) :=
  claim_C8 .generateSuccess .processing .success (by decide)

/-- C9: a custom instruction that is omitted, empty, or whitespace-only
yields exactly the prompt produced with no custom instruction; one with a
non-whitespace character is appended untrimmed, quoted, prefixed by the
fixed marker and followed by a period. -/
theorem claim_C9 :
    ∀ (settings : Option AppSettings) (ci : String),
      (jsTrim ci = "" →
        buildPrompt settings (some ci) = buildPrompt settings none) ∧
      (jsTrim ci ≠ "" →
        buildPrompt settings (some ci)
          = buildPrompt settings none
              ++ ("\n\nUSER SPECIFIC INSTRUCTIONS: \"" ++ ci ++ "\".")) := by
  intro settings ci
  constructor
  · intro h
    unfold buildPrompt
    rw [customSuffix_of_trim_empty ci h, customSuffix_none_eq]
  · intro h
    unfold buildPrompt
    rw [customSuffix_of_trim_ne ci h, customSuffix_none_eq,
      string_append_empty]

/-- Witness for C9 at a whitespace-only and a meaningful custom
instruction. -/
theorem claim_C9_witness :
    buildPrompt (some ⟨.detailed, .english, .concept⟩) (some "   ")
      = buildPrompt (some ⟨.detailed, .english, .concept⟩) none ∧
    buildPrompt (some ⟨.detailed, .english, .concept⟩)
        (some "focus on chapter 2")
      = buildPrompt (some ⟨.detailed, .english, .concept⟩) none
          ++ ("\n\nUSER SPECIFIC INSTRUCTIONS: \"" ++ "focus on chapter 2"
              ++ "\".") :=
  ⟨(claim_C9 (some ⟨.detailed, .english, .concept⟩) "   ").1 (by decide),
   (claim_C9 (some ⟨.detailed, .english, .concept⟩) "focus on chapter 2").2
     (by decide)⟩

/-- C10: whenever `generateAnswersFromPdf` returns normally, the returned
`AnswerData` has nonempty text and its `modelUsed` is one of the two tier
identifiers. -/
theorem claim_C10 :
    ∀ (p s : CallOutcome) (d : AnswerData),
      (generateAnswersFromPdf p s).1 = .ok d →
      d.text ≠ "" ∧
        (d.modelUsed = "gemini-3-pro-preview" ∨
          d.modelUsed = "gemini-2.5-flash") := by
  intro p s d h
  have hfb : ∀ o : CallOutcome, (fallbackToFlash o).1 = .ok d →
      d.text ≠ "" ∧
        (d.modelUsed = "gemini-3-pro-preview" ∨
          d.modelUsed = "gemini-2.5-flash") := by
    intro o ho
    cases o with
    | response u =>
        by_cases hu : u = ""
        · simp [fallbackToFlash, hu] at ho
        · simp [fallbackToFlash, hu] at ho
          rw [← ho]
          exact ⟨hu, Or.inr rfl⟩
    | raise mm => simp [fallbackToFlash] at ho
  cases p with
  | response t =>
      by_cases ht : t = ""
      · subst ht
        simp only [generateAnswersFromPdf, ne_eq, not_true_eq_false,
          if_false, ite_false] at h
        exact hfb s (by simpa using h)
      · simp [generateAnswersFromPdf, ht] at h
        rw [← h]
        exact ⟨ht, Or.inl rfl⟩
  | raise mp =>
      exact hfb s h

/-- Witness for C10 at a successful primary response. -/
theorem claim_C10_witness :
    ("guide text" : String) ≠ "" ∧
    (("gemini-3-pro-preview" : String) = "gemini-3-pro-preview" ∨
      ("gemini-3-pro-preview" : String) = "gemini-2.5-flash") :=
  claim_C10 (.response "guide text") (.raise "x")
    ⟨"guide text", "gemini-3-pro-preview"⟩ rfl

end BapsQB
